import Mathlib

/-!
Shallow embedding of src/groq/src/chat/message.rs: the request/response data
model of a chat-completion API and the fluent builder on the request type
CreateChatCompletion.  Rust f32 values are modelled by the type F32 below;
machine integers (u8, u32, u64) carry no arithmetic in this file, so they are
modelled as Nat.
-/

namespace Groq

/--
Model of Rust f32 for the purposes of this file.  The code only compares f32
values against the exact constants 0.0, 1.0, 2.0 and stores them; it never does
arithmetic.  Every finite f32 value is an exact rational, so finite values are
modelled as rationals (this conflates -0.0 with 0.0, which IEEE-754 comparison
also does), and NaN and the two infinities are separate constructors (NaN
payloads are conflated, which is invisible to comparisons and storage).
-/
inductive F32 where
  | nan
  | negInf
  | posInf
  | fin (q : ℚ)
deriving DecidableEq

/--
IEEE-754 strict less-than on the F32 model, as a Bool like the value of a
Rust comparison expression: every comparison involving NaN is false, negInf is
below every non-NaN value other than itself, posInf is above every non-NaN
value other than itself, and finite values compare as rationals.
-/
def F32.blt : F32 → F32 → Bool
  | .nan, _ => false
  | _, .nan => false
  | .negInf, .negInf => false
  | .negInf, _ => true
  | _, .negInf => false
  | .posInf, _ => false
  | .fin _, .posInf => true
  | .fin a, .fin b => decide (a < b)

/-- Membership of an F32 value in the closed interval from lo to hi: only
finite values belong; NaN and the infinities never do. -/
def F32.memIcc (x : F32) (lo hi : ℚ) : Prop :=
  match x with
  | .fin q => lo ≤ q ∧ q ≤ hi
  | _ => False

instance (x : F32) (lo hi : ℚ) : Decidable (x.memIcc lo hi) :=
  match x with
  | .fin q => inferInstanceAs (Decidable (lo ≤ q ∧ q ≤ hi))
  | .nan => isFalse (fun h => h)
  | .negInf => isFalse (fun h => h)
  | .posInf => isFalse (fun h => h)

/--
Modelled from the spec: the model-identifier enum of src/groq/src/models.rs is
not among the sources shown; the spec says only that the builder starts from a
fixed default model, which message.rs names Model::Llama38B.  The enum is
modelled with that variant plus two representative others, so that statements
quantifying over models are non-trivial.
-/
inductive Model where
  | llama38B
  | gemma7B
  | mixtral8x7B
deriving DecidableEq

/-- enum Role, with serde tags assistant / system / user (rename_all =
lowercase). -/
inductive Role where
  | assistant
  | system
  | user
deriving DecidableEq

/-- struct ToolCall { id, type } from the response schema. -/
structure ToolCall where
  id : String
  kind : String
deriving DecidableEq

/-- struct Message: a request-side message.  Its fields are content (String),
role (Role) and an optional name; the name field carries
serde(skip_serializing_if = Option::is_none). -/
structure Message where
  content : String
  role : Role
  name : Option String
deriving DecidableEq

/-- struct ChoiceMessage: a response-side message with optional content,
optional refusal, optional tool calls, and a role. -/
structure ChoiceMessage where
  content : Option String
  refusal : Option String
  tool_calls : Option (List ToolCall)
  role : Role
deriving DecidableEq

/-- enum ResponseKind { Text, JsonObject }, serde rename_all = snake_case. -/
inductive ResponseKind where
  | text
  | jsonObject
deriving DecidableEq

/-- struct ResponseFormat { type: ResponseKind } (the field is named kind in
Rust and renamed to "type" on the wire). -/
structure ResponseFormat where
  kind : ResponseKind
deriving DecidableEq

/-- struct StreamOptions { include_usage: Option<bool> } — note this field has
no skip_serializing_if attribute. -/
structure StreamOptions where
  include_usage : Option Bool
deriving DecidableEq

/--
JSON values, used both for the logit_bias field (serde_json::Value in Rust)
and as the target of the modelled wire format.  Numbers are exact rationals.
-/
inductive Json where
  | null
  | bool (b : Bool)
  | num (q : ℚ)
  | str (s : String)
  | arr (xs : List Json)
  | obj (fields : List (String × Json))

/--
struct CreateChatCompletion, the request type.  The field names and order are
those of the Rust struct; every field below model and messages is Option-typed
and carries serde(skip_serializing_if = Option::is_none).
-/
structure CreateChatCompletion where
  model : Model
  messages : List Message
  frequency_penalty : Option F32
  logit_bias : Option Json
  logprobs : Option Bool
  top_logprobs : Option Nat
  max_tokens : Option Nat
  n : Option Nat
  presence_penalty : Option F32
  response_format : Option ResponseFormat
  seed : Option Nat
  service_tier : Option String
  stop : Option String
  stream : Option Bool
  stream_options : Option StreamOptions
  temperature : Option F32
  top_p : Option F32
  parallel_tool_calls : Option Bool
  user : Option String

namespace CreateChatCompletion

/-- impl Default for CreateChatCompletion: Llama38B model, max_tokens 1000,
empty messages, every other optional field None. -/
def default : CreateChatCompletion where
  model := .llama38B
  max_tokens := some 1000
  messages := []
  n := none
  seed := none
  temperature := none
  top_p := none
  stream := none
  stream_options := none
  logit_bias := none
  parallel_tool_calls := none
  stop := none
  user := none
  logprobs := none
  response_format := none
  presence_penalty := none
  top_logprobs := none
  frequency_penalty := none
  service_tier := none

/-- CreateChatCompletion::new(model, messages): the default configuration with
model and messages overridden (Rust struct-update syntax over Default). -/
def new (model : Model) (messages : List Message) : CreateChatCompletion :=
  { default with model := model, messages := messages }

def with_model (c : CreateChatCompletion) (model : Model) : CreateChatCompletion :=
  { c with model := model }

def with_messages (c : CreateChatCompletion) (messages : List Message) : CreateChatCompletion :=
  { c with messages := messages }

def with_frequence_penalty (c : CreateChatCompletion) (frequence_penalty : F32) : CreateChatCompletion :=
  { c with frequency_penalty := some frequence_penalty }

def with_logit_bias (c : CreateChatCompletion) (logit_bias : Json) : CreateChatCompletion :=
  { c with logit_bias := some logit_bias }

def with_logprobs (c : CreateChatCompletion) (logprobs : Bool) : CreateChatCompletion :=
  { c with logprobs := some logprobs }

def with_top_logprobs (c : CreateChatCompletion) (top_logprobs : Nat) : CreateChatCompletion :=
  { c with top_logprobs := some top_logprobs }

def with_max_tokens (c : CreateChatCompletion) (max_tokens : Nat) : CreateChatCompletion :=
  { c with max_tokens := some max_tokens }

def with_n (c : CreateChatCompletion) (n : Nat) : CreateChatCompletion :=
  { c with n := some n }

def with_presence_penalty (c : CreateChatCompletion) (presence_penalty : F32) : CreateChatCompletion :=
  { c with presence_penalty := some presence_penalty }

def with_response_format (c : CreateChatCompletion) (response_format : ResponseFormat) : CreateChatCompletion :=
  { c with response_format := some response_format }

def with_seed (c : CreateChatCompletion) (seed : Nat) : CreateChatCompletion :=
  { c with seed := some seed }

def with_service_tier (c : CreateChatCompletion) (service_tier : String) : CreateChatCompletion :=
  { c with service_tier := some service_tier }

def with_stop (c : CreateChatCompletion) (stop : String) : CreateChatCompletion :=
  { c with stop := some stop }

def with_stream (c : CreateChatCompletion) (stream : Bool) : CreateChatCompletion :=
  { c with stream := some stream }

def with_stream_options (c : CreateChatCompletion) (stream_options : StreamOptions) : CreateChatCompletion :=
  { c with stream_options := some stream_options }

/-- with_temperature: clamps its argument into the interval from 0.0 to 2.0
via two Rust f32 comparisons, then stores it.  Both comparisons are false for
NaN, so NaN is stored unclamped. -/
def with_temperature (c : CreateChatCompletion) (temperature : F32) : CreateChatCompletion :=
  if F32.blt temperature (F32.fin 0) then
    { c with temperature := some (F32.fin 0) }
  else if F32.blt (F32.fin 2) temperature then
    { c with temperature := some (F32.fin 2) }
  else
    { c with temperature := some temperature }

/-- with_top_p: clamps its argument into the interval from 0.0 to 1.0 via two
Rust f32 comparisons, then stores it.  Both comparisons are false for NaN, so
NaN is stored unclamped. -/
def with_top_p (c : CreateChatCompletion) (top_p : F32) : CreateChatCompletion :=
  if F32.blt top_p (F32.fin 0) then
    { c with top_p := some (F32.fin 0) }
  else if F32.blt (F32.fin 1) top_p then
    { c with top_p := some (F32.fin 1) }
  else
    { c with top_p := some top_p }

def with_parallel_tool_calls (c : CreateChatCompletion) (parallel_tool_calls : Bool) : CreateChatCompletion :=
  { c with parallel_tool_calls := some parallel_tool_calls }

def with_user (c : CreateChatCompletion) (user : String) : CreateChatCompletion :=
  { c with user := some user }

end CreateChatCompletion

/-! ## Wire format

Modelled from the spec: the Serialize/Deserialize implementations are derived
by serde and their expansion is not among the sources shown.  The spec states
the wire format is a JSON body whose keys match the Rust field names verbatim
(snake_case), with Option-typed fields omitted from the payload when unset,
and that a serialize-then-deserialize round trip preserves every field that
was set.  The encoders below follow those words and the serde attributes
visible in the source (field names, renames, skip_serializing_if); JSON
numbers are modelled as exact rationals and the non-finite f32 values are
given distinguished encodings, since the spec does not constrain them. -/

/-- Looks a key up in a JSON object's field list (first binding wins). -/
def jlookup (name : String) : List (String × Json) → Option Json
  | [] => none
  | (k, v) :: rest => if k = name then some v else jlookup name rest

/-- One serde field with skip_serializing_if = Option::is_none: the key is
present in the output exactly when the value is set. -/
def optField (name : String) (enc : α → Json) : Option α → List (String × Json)
  | none => []
  | some v => [(name, enc v)]

/-- Reads an optional field back: an absent key is None, a present key must
decode. -/
def decOptField (fs : List (String × Json)) (name : String)
    (dec : Json → Option α) : Option (Option α) :=
  match jlookup name fs with
  | none => some none
  | some j => (dec j).map some

def encodeF32 : F32 → Json
  | .fin q => .num q
  | .nan => .str "NaN"
  | .negInf => .str "-Infinity"
  | .posInf => .str "Infinity"

def decodeF32 : Json → Option F32
  | .num q => some (.fin q)
  | .str "NaN" => some .nan
  | .str "-Infinity" => some .negInf
  | .str "Infinity" => some .posInf
  | _ => none

def encodeNat (n : Nat) : Json := .num n

def decodeNat : Json → Option Nat
  | .num q => if q.den = 1 ∧ 0 ≤ q.num then some q.num.toNat else none
  | _ => none

def decodeBool : Json → Option Bool
  | .bool b => some b
  | _ => none

def decodeString : Json → Option String
  | .str s => some s
  | _ => none

/-- Modelled from the spec: the wire tags of the Model enum are not in the
sources shown; any injective string tagging works for the round-trip claim. -/
def modelTag : Model → String
  | .llama38B => "llama3-8b-8192"
  | .gemma7B => "gemma-7b-it"
  | .mixtral8x7B => "mixtral-8x7b-32768"

def encodeModel (m : Model) : Json := .str (modelTag m)

def decodeModel : Json → Option Model
  | .str "llama3-8b-8192" => some .llama38B
  | .str "gemma-7b-it" => some .gemma7B
  | .str "mixtral-8x7b-32768" => some .mixtral8x7B
  | _ => none

/-- serde(rename_all = "lowercase") on Role. -/
def encodeRole : Role → Json
  | .assistant => .str "assistant"
  | .system => .str "system"
  | .user => .str "user"

def decodeRole : Json → Option Role
  | .str "assistant" => some .assistant
  | .str "system" => some .system
  | .str "user" => some .user
  | _ => none

/-- serde(rename_all = "snake_case") on ResponseKind. -/
def encodeResponseKind : ResponseKind → Json
  | .text => .str "text"
  | .jsonObject => .str "json_object"

def decodeResponseKind : Json → Option ResponseKind
  | .str "text" => some .text
  | .str "json_object" => some .jsonObject
  | _ => none

/-- The kind field is renamed to "type" on the wire. -/
def encodeResponseFormat (r : ResponseFormat) : Json :=
  .obj [("type", encodeResponseKind r.kind)]

def decodeResponseFormat : Json → Option ResponseFormat
  | .obj fs => ((jlookup "type" fs).bind decodeResponseKind).map ResponseFormat.mk
  | _ => none

/-- include_usage has no skip attribute: None serializes as JSON null. -/
def encodeStreamOptions (o : StreamOptions) : Json :=
  .obj [("include_usage",
    match o.include_usage with
    | none => Json.null
    | some b => Json.bool b)]

def decodeStreamOptions : Json → Option StreamOptions
  | .obj fs =>
    match jlookup "include_usage" fs with
    | none => some ⟨none⟩
    | some .null => some ⟨none⟩
    | some (.bool b) => some ⟨some b⟩
    | some _ => none
  | _ => none

/-- Field list of a serialized Message: content, role, then the optional name
(which carries skip_serializing_if in the source). -/
def encodeMessageFields (m : Message) : List (String × Json) :=
  ("content", Json.str m.content) :: ("role", encodeRole m.role) ::
    optField "name" Json.str m.name

def encodeMessage (m : Message) : Json := .obj (encodeMessageFields m)

/-- Deserializes a Message: only the three declared fields are read, any other
key in the object is ignored (serde's default for unknown fields). -/
def decodeMessage : Json → Option Message
  | .obj fs => do
      let content ← (jlookup "content" fs).bind decodeString
      let role ← (jlookup "role" fs).bind decodeRole
      let name ← decOptField fs "name" decodeString
      pure { content := content, role := role, name := name }
  | _ => none

def decodeMessageList : List Json → Option (List Message)
  | [] => some []
  | j :: rest => do
      let m ← decodeMessage j
      let ms ← decodeMessageList rest
      pure (m :: ms)

def decodeMessages : Json → Option (List Message)
  | .arr xs => decodeMessageList xs
  | _ => none

/-- Field list of a serialized CreateChatCompletion: the two required fields,
then each Option-typed field contributing its key exactly when set, in the
declaration order of the Rust struct. -/
def encodeFields (c : CreateChatCompletion) : List (String × Json) :=
  ("model", encodeModel c.model) ::
  ("messages", Json.arr (c.messages.map encodeMessage)) ::
  (optField "frequency_penalty" encodeF32 c.frequency_penalty ++
   optField "logit_bias" id c.logit_bias ++
   optField "logprobs" Json.bool c.logprobs ++
   optField "top_logprobs" encodeNat c.top_logprobs ++
   optField "max_tokens" encodeNat c.max_tokens ++
   optField "n" encodeNat c.n ++
   optField "presence_penalty" encodeF32 c.presence_penalty ++
   optField "response_format" encodeResponseFormat c.response_format ++
   optField "seed" encodeNat c.seed ++
   optField "service_tier" Json.str c.service_tier ++
   optField "stop" Json.str c.stop ++
   optField "stream" Json.bool c.stream ++
   optField "stream_options" encodeStreamOptions c.stream_options ++
   optField "temperature" encodeF32 c.temperature ++
   optField "top_p" encodeF32 c.top_p ++
   optField "parallel_tool_calls" Json.bool c.parallel_tool_calls ++
   optField "user" Json.str c.user)

def encodeCreateChatCompletion (c : CreateChatCompletion) : Json :=
  .obj (encodeFields c)

/-- Reads the first six optional fields back (split into chunks only to keep
the compiled code small; semantically one field-by-field read). -/
def decodeOptsA (fs : List (String × Json)) :
    Option (Option F32 × Option Json × Option Bool × Option Nat × Option Nat × Option Nat) := do
  let frequency_penalty ← decOptField fs "frequency_penalty" decodeF32
  let logit_bias ← decOptField fs "logit_bias" some
  let logprobs ← decOptField fs "logprobs" decodeBool
  let top_logprobs ← decOptField fs "top_logprobs" decodeNat
  let max_tokens ← decOptField fs "max_tokens" decodeNat
  let n ← decOptField fs "n" decodeNat
  pure (frequency_penalty, logit_bias, logprobs, top_logprobs, max_tokens, n)

/-- Reads the next six optional fields back. -/
def decodeOptsB (fs : List (String × Json)) :
    Option (Option F32 × Option ResponseFormat × Option Nat × Option String × Option String × Option Bool) := do
  let presence_penalty ← decOptField fs "presence_penalty" decodeF32
  let response_format ← decOptField fs "response_format" decodeResponseFormat
  let seed ← decOptField fs "seed" decodeNat
  let service_tier ← decOptField fs "service_tier" decodeString
  let stop ← decOptField fs "stop" decodeString
  let stream ← decOptField fs "stream" decodeBool
  pure (presence_penalty, response_format, seed, service_tier, stop, stream)

/-- Reads the last five optional fields back. -/
def decodeOptsC (fs : List (String × Json)) :
    Option (Option StreamOptions × Option F32 × Option F32 × Option Bool × Option String) := do
  let stream_options ← decOptField fs "stream_options" decodeStreamOptions
  let temperature ← decOptField fs "temperature" decodeF32
  let top_p ← decOptField fs "top_p" decodeF32
  let parallel_tool_calls ← decOptField fs "parallel_tool_calls" decodeBool
  let user ← decOptField fs "user" decodeString
  pure (stream_options, temperature, top_p, parallel_tool_calls, user)

def decodeCCCFields (fs : List (String × Json)) : Option CreateChatCompletion := do
  let model ← (jlookup "model" fs).bind decodeModel
  let messages ← (jlookup "messages" fs).bind decodeMessages
  let (frequency_penalty, logit_bias, logprobs, top_logprobs, max_tokens, n) ← decodeOptsA fs
  let (presence_penalty, response_format, seed, service_tier, stop, stream) ← decodeOptsB fs
  let (stream_options, temperature, top_p, parallel_tool_calls, user) ← decodeOptsC fs
  pure { model := model, messages := messages,
         frequency_penalty := frequency_penalty, logit_bias := logit_bias,
         logprobs := logprobs, top_logprobs := top_logprobs,
         max_tokens := max_tokens, n := n,
         presence_penalty := presence_penalty,
         response_format := response_format, seed := seed,
         service_tier := service_tier, stop := stop, stream := stream,
         stream_options := stream_options, temperature := temperature,
         top_p := top_p, parallel_tool_calls := parallel_tool_calls,
         user := user }

def decodeCreateChatCompletion : Json → Option CreateChatCompletion
  | .obj fs => decodeCCCFields fs
  | _ => none

/-! ## Builder call chains -/

/-- One builder call together with its argument, one constructor per with_
method of the impl block. -/
inductive BuilderCall where
  | model (m : Model)
  | messages (ms : List Message)
  | frequence_penalty (v : F32)
  | logit_bias (j : Json)
  | logprobs (b : Bool)
  | top_logprobs (v : Nat)
  | max_tokens (v : Nat)
  | n (v : Nat)
  | presence_penalty (v : F32)
  | response_format (r : ResponseFormat)
  | seed (v : Nat)
  | service_tier (s : String)
  | stop (s : String)
  | stream (b : Bool)
  | stream_options (o : StreamOptions)
  | temperature (t : F32)
  | top_p (p : F32)
  | parallel_tool_calls (b : Bool)
  | user (s : String)

/-- Performs one builder call. -/
def applyCall (c : CreateChatCompletion) : BuilderCall → CreateChatCompletion
  | .model m => c.with_model m
  | .messages ms => c.with_messages ms
  | .frequence_penalty v => c.with_frequence_penalty v
  | .logit_bias j => c.with_logit_bias j
  | .logprobs b => c.with_logprobs b
  | .top_logprobs v => c.with_top_logprobs v
  | .max_tokens v => c.with_max_tokens v
  | .n v => c.with_n v
  | .presence_penalty v => c.with_presence_penalty v
  | .response_format r => c.with_response_format r
  | .seed v => c.with_seed v
  | .service_tier s => c.with_service_tier s
  | .stop s => c.with_stop s
  | .stream b => c.with_stream b
  | .stream_options o => c.with_stream_options o
  | .temperature t => c.with_temperature t
  | .top_p p => c.with_top_p p
  | .parallel_tool_calls b => c.with_parallel_tool_calls b
  | .user s => c.with_user s

/-- Performs a finite chain of builder calls, left to right. -/
def applyCalls (c : CreateChatCompletion) (calls : List BuilderCall) : CreateChatCompletion :=
  calls.foldl applyCall c

/-- A builder call whose argument cannot defeat the clamping: its argument is
not NaN when the call is one of the two clamped setters. -/
def BuilderCall.clampSafe : BuilderCall → Prop
  | .temperature t => t ≠ F32.nan
  | .top_p p => p ≠ F32.nan
  | _ => True

instance : DecidablePred BuilderCall.clampSafe := fun call => by
  cases call <;> simp [BuilderCall.clampSafe] <;> infer_instance

/-- The documented range invariant on the two clamped sampling parameters. -/
def ParamInvariant (c : CreateChatCompletion) : Prop :=
  (∀ t, c.temperature = some t → t.memIcc 0 2) ∧
  (∀ p, c.top_p = some p → p.memIcc 0 1)


/-! ## Lemmas about the wire format -/

theorem jlookup_cons_self (n : String) (v : Json) (rest : List (String × Json)) :
    jlookup n ((n, v) :: rest) = some v := by simp [jlookup]

theorem jlookup_cons_ne (k n : String) (v : Json) (rest : List (String × Json))
    (h : ¬ k = n) : jlookup n ((k, v) :: rest) = jlookup n rest := by
  simp [jlookup, h]

theorem jlookup_optField_ne {α : Type} (m n : String) (enc : α → Json)
    (o : Option α) (rest : List (String × Json)) (h : ¬ m = n) :
    jlookup n (optField m enc o ++ rest) = jlookup n rest := by
  cases o <;> simp [optField, jlookup, h]

theorem jlookup_optField_ne_nil {α : Type} (m n : String) (enc : α → Json)
    (o : Option α) (h : ¬ m = n) : jlookup n (optField m enc o) = none := by
  cases o <;> simp [optField, jlookup, h]

theorem jlookup_optField_self {α : Type} (n : String) (enc : α → Json)
    (o : Option α) (rest : List (String × Json)) (h : jlookup n rest = none) :
    jlookup n (optField n enc o ++ rest) = Option.map enc o := by
  cases o <;> simp [optField, jlookup, h]

theorem jlookup_optField_self_nil {α : Type} (n : String) (enc : α → Json)
    (o : Option α) : jlookup n (optField n enc o) = Option.map enc o := by
  cases o <;> simp [optField, jlookup]

theorem contains_keys_eq_isSome (l : List (String × Json)) (n : String) :
    (l.map Prod.fst).contains n = (jlookup n l).isSome := by
  induction l with
  | nil => rfl
  | cons p rest ih =>
      obtain ⟨k, v⟩ := p
      by_cases h : k = n
      · subst h; simp [jlookup]
      · have hb : (n == k) = false := beq_eq_false_iff_ne.mpr (Ne.symm h)
        rw [List.map_cons, List.contains_cons, hb, Bool.false_or, ih]
        simp [jlookup, h]

theorem decodeF32_encodeF32 (x : F32) : decodeF32 (encodeF32 x) = some x := by
  cases x <;> rfl

theorem decodeNat_encodeNat (n : Nat) : decodeNat (encodeNat n) = some n := by
  simp [decodeNat, encodeNat]

theorem decodeBool_bool (b : Bool) : decodeBool (Json.bool b) = some b := rfl

theorem decodeString_str (s : String) : decodeString (Json.str s) = some s := rfl

theorem decodeModel_encodeModel (m : Model) : decodeModel (encodeModel m) = some m := by
  cases m <;> rfl

theorem decodeRole_encodeRole (r : Role) : decodeRole (encodeRole r) = some r := by
  cases r <;> rfl

theorem decodeResponseFormat_encodeResponseFormat (r : ResponseFormat) :
    decodeResponseFormat (encodeResponseFormat r) = some r := by
  obtain ⟨k⟩ := r; cases k <;> rfl

theorem decodeStreamOptions_encodeStreamOptions (o : StreamOptions) :
    decodeStreamOptions (encodeStreamOptions o) = some o := by
  obtain ⟨iu⟩ := o; cases iu <;> rfl

theorem decodeMessage_encodeMessage (m : Message) :
    decodeMessage (encodeMessage m) = some m := by
  obtain ⟨content, role, nm⟩ := m
  cases nm <;>
    simp [decodeMessage, encodeMessage, encodeMessageFields, optField, jlookup,
      decOptField, decodeRole_encodeRole, decodeString]

theorem decodeMessageList_map (l : List Message) :
    decodeMessageList (l.map encodeMessage) = some l := by
  induction l with
  | nil => rfl
  | cons m t ih => simp [decodeMessageList, decodeMessage_encodeMessage, ih]

theorem jlookup_enc_model (c : CreateChatCompletion) :
    jlookup "model" (encodeFields c) = some (encodeModel c.model) := by
  simp [encodeFields, jlookup_cons_self]

theorem jlookup_enc_messages (c : CreateChatCompletion) :
    jlookup "messages" (encodeFields c) = some (Json.arr (c.messages.map encodeMessage)) := by
  simp [encodeFields, jlookup_cons_ne, jlookup_cons_self]

theorem dec_enc_model (c : CreateChatCompletion) :
    (jlookup "model" (encodeFields c)).bind decodeModel = some c.model := by
  simp [jlookup_enc_model, decodeModel_encodeModel]

theorem dec_enc_messages (c : CreateChatCompletion) :
    (jlookup "messages" (encodeFields c)).bind decodeMessages = some c.messages := by
  simp [jlookup_enc_messages, decodeMessages, decodeMessageList_map]

theorem jlookup_enc_frequency_penalty (c : CreateChatCompletion) :
    jlookup "frequency_penalty" (encodeFields c) = Option.map encodeF32 c.frequency_penalty := by
  simp [encodeFields, List.append_assoc, jlookup_cons_ne, jlookup_optField_ne,
    jlookup_optField_self, jlookup_optField_self_nil, jlookup_optField_ne_nil]

theorem decOpt_enc_frequency_penalty (c : CreateChatCompletion) :
    decOptField (encodeFields c) "frequency_penalty" decodeF32 = some c.frequency_penalty := by
  cases h : c.frequency_penalty <;> simp [decOptField, jlookup_enc_frequency_penalty, h, decodeF32_encodeF32]

theorem jlookup_enc_logit_bias (c : CreateChatCompletion) :
    jlookup "logit_bias" (encodeFields c) = Option.map id c.logit_bias := by
  simp [encodeFields, List.append_assoc, jlookup_cons_ne, jlookup_optField_ne,
    jlookup_optField_self, jlookup_optField_self_nil, jlookup_optField_ne_nil]

theorem decOpt_enc_logit_bias (c : CreateChatCompletion) :
    decOptField (encodeFields c) "logit_bias" some = some c.logit_bias := by
  cases h : c.logit_bias <;> simp [decOptField, jlookup_enc_logit_bias, h]

theorem jlookup_enc_logprobs (c : CreateChatCompletion) :
    jlookup "logprobs" (encodeFields c) = Option.map Json.bool c.logprobs := by
  simp [encodeFields, List.append_assoc, jlookup_cons_ne, jlookup_optField_ne,
    jlookup_optField_self, jlookup_optField_self_nil, jlookup_optField_ne_nil]

theorem decOpt_enc_logprobs (c : CreateChatCompletion) :
    decOptField (encodeFields c) "logprobs" decodeBool = some c.logprobs := by
  cases h : c.logprobs <;> simp [decOptField, jlookup_enc_logprobs, h, decodeBool_bool]

theorem jlookup_enc_top_logprobs (c : CreateChatCompletion) :
    jlookup "top_logprobs" (encodeFields c) = Option.map encodeNat c.top_logprobs := by
  simp [encodeFields, List.append_assoc, jlookup_cons_ne, jlookup_optField_ne,
    jlookup_optField_self, jlookup_optField_self_nil, jlookup_optField_ne_nil]

theorem decOpt_enc_top_logprobs (c : CreateChatCompletion) :
    decOptField (encodeFields c) "top_logprobs" decodeNat = some c.top_logprobs := by
  cases h : c.top_logprobs <;> simp [decOptField, jlookup_enc_top_logprobs, h, decodeNat_encodeNat]

theorem jlookup_enc_max_tokens (c : CreateChatCompletion) :
    jlookup "max_tokens" (encodeFields c) = Option.map encodeNat c.max_tokens := by
  simp [encodeFields, List.append_assoc, jlookup_cons_ne, jlookup_optField_ne,
    jlookup_optField_self, jlookup_optField_self_nil, jlookup_optField_ne_nil]

theorem decOpt_enc_max_tokens (c : CreateChatCompletion) :
    decOptField (encodeFields c) "max_tokens" decodeNat = some c.max_tokens := by
  cases h : c.max_tokens <;> simp [decOptField, jlookup_enc_max_tokens, h, decodeNat_encodeNat]

theorem jlookup_enc_n (c : CreateChatCompletion) :
    jlookup "n" (encodeFields c) = Option.map encodeNat c.n := by
  simp [encodeFields, List.append_assoc, jlookup_cons_ne, jlookup_optField_ne,
    jlookup_optField_self, jlookup_optField_self_nil, jlookup_optField_ne_nil]

theorem decOpt_enc_n (c : CreateChatCompletion) :
    decOptField (encodeFields c) "n" decodeNat = some c.n := by
  cases h : c.n <;> simp [decOptField, jlookup_enc_n, h, decodeNat_encodeNat]

theorem jlookup_enc_presence_penalty (c : CreateChatCompletion) :
    jlookup "presence_penalty" (encodeFields c) = Option.map encodeF32 c.presence_penalty := by
  simp [encodeFields, List.append_assoc, jlookup_cons_ne, jlookup_optField_ne,
    jlookup_optField_self, jlookup_optField_self_nil, jlookup_optField_ne_nil]

theorem decOpt_enc_presence_penalty (c : CreateChatCompletion) :
    decOptField (encodeFields c) "presence_penalty" decodeF32 = some c.presence_penalty := by
  cases h : c.presence_penalty <;> simp [decOptField, jlookup_enc_presence_penalty, h, decodeF32_encodeF32]

theorem jlookup_enc_response_format (c : CreateChatCompletion) :
    jlookup "response_format" (encodeFields c) = Option.map encodeResponseFormat c.response_format := by
  simp [encodeFields, List.append_assoc, jlookup_cons_ne, jlookup_optField_ne,
    jlookup_optField_self, jlookup_optField_self_nil, jlookup_optField_ne_nil]

theorem decOpt_enc_response_format (c : CreateChatCompletion) :
    decOptField (encodeFields c) "response_format" decodeResponseFormat = some c.response_format := by
  cases h : c.response_format <;> simp [decOptField, jlookup_enc_response_format, h, decodeResponseFormat_encodeResponseFormat]

theorem jlookup_enc_seed (c : CreateChatCompletion) :
    jlookup "seed" (encodeFields c) = Option.map encodeNat c.seed := by
  simp [encodeFields, List.append_assoc, jlookup_cons_ne, jlookup_optField_ne,
    jlookup_optField_self, jlookup_optField_self_nil, jlookup_optField_ne_nil]

theorem decOpt_enc_seed (c : CreateChatCompletion) :
    decOptField (encodeFields c) "seed" decodeNat = some c.seed := by
  cases h : c.seed <;> simp [decOptField, jlookup_enc_seed, h, decodeNat_encodeNat]

theorem jlookup_enc_service_tier (c : CreateChatCompletion) :
    jlookup "service_tier" (encodeFields c) = Option.map Json.str c.service_tier := by
  simp [encodeFields, List.append_assoc, jlookup_cons_ne, jlookup_optField_ne,
    jlookup_optField_self, jlookup_optField_self_nil, jlookup_optField_ne_nil]

theorem decOpt_enc_service_tier (c : CreateChatCompletion) :
    decOptField (encodeFields c) "service_tier" decodeString = some c.service_tier := by
  cases h : c.service_tier <;> simp [decOptField, jlookup_enc_service_tier, h, decodeString_str]

theorem jlookup_enc_stop (c : CreateChatCompletion) :
    jlookup "stop" (encodeFields c) = Option.map Json.str c.stop := by
  simp [encodeFields, List.append_assoc, jlookup_cons_ne, jlookup_optField_ne,
    jlookup_optField_self, jlookup_optField_self_nil, jlookup_optField_ne_nil]

theorem decOpt_enc_stop (c : CreateChatCompletion) :
    decOptField (encodeFields c) "stop" decodeString = some c.stop := by
  cases h : c.stop <;> simp [decOptField, jlookup_enc_stop, h, decodeString_str]

theorem jlookup_enc_stream (c : CreateChatCompletion) :
    jlookup "stream" (encodeFields c) = Option.map Json.bool c.stream := by
  simp [encodeFields, List.append_assoc, jlookup_cons_ne, jlookup_optField_ne,
    jlookup_optField_self, jlookup_optField_self_nil, jlookup_optField_ne_nil]

theorem decOpt_enc_stream (c : CreateChatCompletion) :
    decOptField (encodeFields c) "stream" decodeBool = some c.stream := by
  cases h : c.stream <;> simp [decOptField, jlookup_enc_stream, h, decodeBool_bool]

theorem jlookup_enc_stream_options (c : CreateChatCompletion) :
    jlookup "stream_options" (encodeFields c) = Option.map encodeStreamOptions c.stream_options := by
  simp [encodeFields, List.append_assoc, jlookup_cons_ne, jlookup_optField_ne,
    jlookup_optField_self, jlookup_optField_self_nil, jlookup_optField_ne_nil]

theorem decOpt_enc_stream_options (c : CreateChatCompletion) :
    decOptField (encodeFields c) "stream_options" decodeStreamOptions = some c.stream_options := by
  cases h : c.stream_options <;> simp [decOptField, jlookup_enc_stream_options, h, decodeStreamOptions_encodeStreamOptions]

theorem jlookup_enc_temperature (c : CreateChatCompletion) :
    jlookup "temperature" (encodeFields c) = Option.map encodeF32 c.temperature := by
  simp [encodeFields, List.append_assoc, jlookup_cons_ne, jlookup_optField_ne,
    jlookup_optField_self, jlookup_optField_self_nil, jlookup_optField_ne_nil]

theorem decOpt_enc_temperature (c : CreateChatCompletion) :
    decOptField (encodeFields c) "temperature" decodeF32 = some c.temperature := by
  cases h : c.temperature <;> simp [decOptField, jlookup_enc_temperature, h, decodeF32_encodeF32]

theorem jlookup_enc_top_p (c : CreateChatCompletion) :
    jlookup "top_p" (encodeFields c) = Option.map encodeF32 c.top_p := by
  simp [encodeFields, List.append_assoc, jlookup_cons_ne, jlookup_optField_ne,
    jlookup_optField_self, jlookup_optField_self_nil, jlookup_optField_ne_nil]

theorem decOpt_enc_top_p (c : CreateChatCompletion) :
    decOptField (encodeFields c) "top_p" decodeF32 = some c.top_p := by
  cases h : c.top_p <;> simp [decOptField, jlookup_enc_top_p, h, decodeF32_encodeF32]

theorem jlookup_enc_parallel_tool_calls (c : CreateChatCompletion) :
    jlookup "parallel_tool_calls" (encodeFields c) = Option.map Json.bool c.parallel_tool_calls := by
  simp [encodeFields, List.append_assoc, jlookup_cons_ne, jlookup_optField_ne,
    jlookup_optField_self, jlookup_optField_self_nil, jlookup_optField_ne_nil]

theorem decOpt_enc_parallel_tool_calls (c : CreateChatCompletion) :
    decOptField (encodeFields c) "parallel_tool_calls" decodeBool = some c.parallel_tool_calls := by
  cases h : c.parallel_tool_calls <;> simp [decOptField, jlookup_enc_parallel_tool_calls, h, decodeBool_bool]

theorem jlookup_enc_user (c : CreateChatCompletion) :
    jlookup "user" (encodeFields c) = Option.map Json.str c.user := by
  simp [encodeFields, List.append_assoc, jlookup_cons_ne, jlookup_optField_ne,
    jlookup_optField_self, jlookup_optField_self_nil, jlookup_optField_ne_nil]

theorem decOpt_enc_user (c : CreateChatCompletion) :
    decOptField (encodeFields c) "user" decodeString = some c.user := by
  cases h : c.user <;> simp [decOptField, jlookup_enc_user, h, decodeString_str]

theorem decodeOptsA_enc (c : CreateChatCompletion) :
    decodeOptsA (encodeFields c) = some (c.frequency_penalty, c.logit_bias,
      c.logprobs, c.top_logprobs, c.max_tokens, c.n) := by
  simp [decodeOptsA, decOpt_enc_frequency_penalty, decOpt_enc_logit_bias,
    decOpt_enc_logprobs, decOpt_enc_top_logprobs, decOpt_enc_max_tokens,
    decOpt_enc_n]

theorem decodeOptsB_enc (c : CreateChatCompletion) :
    decodeOptsB (encodeFields c) = some (c.presence_penalty, c.response_format,
      c.seed, c.service_tier, c.stop, c.stream) := by
  simp [decodeOptsB, decOpt_enc_presence_penalty, decOpt_enc_response_format,
    decOpt_enc_seed, decOpt_enc_service_tier, decOpt_enc_stop, decOpt_enc_stream]

theorem decodeOptsC_enc (c : CreateChatCompletion) :
    decodeOptsC (encodeFields c) = some (c.stream_options, c.temperature,
      c.top_p, c.parallel_tool_calls, c.user) := by
  simp [decodeOptsC, decOpt_enc_stream_options, decOpt_enc_temperature,
    decOpt_enc_top_p, decOpt_enc_parallel_tool_calls, decOpt_enc_user]

theorem decode_encode (c : CreateChatCompletion) :
    decodeCreateChatCompletion (encodeCreateChatCompletion c) = some c := by
  simp [decodeCreateChatCompletion, encodeCreateChatCompletion, decodeCCCFields,
    dec_enc_model, dec_enc_messages, decodeOptsA_enc, decodeOptsB_enc,
    decodeOptsC_enc]


/-! ## Behaviour of the clamped setters -/

theorem with_temperature_eq (c : CreateChatCompletion) (t : F32) :
    c.with_temperature t = { c with temperature := some (if F32.blt t (F32.fin 0) then F32.fin 0 else if F32.blt (F32.fin 2) t then F32.fin 2 else t) } := by
  by_cases h1 : F32.blt t (F32.fin 0) = true <;>
    by_cases h2 : F32.blt (F32.fin 2) t = true <;>
      simp [CreateChatCompletion.with_temperature, h1, h2]

theorem with_top_p_eq (c : CreateChatCompletion) (p : F32) :
    c.with_top_p p = { c with top_p := some (if F32.blt p (F32.fin 0) then F32.fin 0 else if F32.blt (F32.fin 1) p then F32.fin 1 else p) } := by
  by_cases h1 : F32.blt p (F32.fin 0) = true <;>
    by_cases h2 : F32.blt (F32.fin 1) p = true <;>
      simp [CreateChatCompletion.with_top_p, h1, h2]

theorem F32.memIcc_not_blt_left {t : F32} {lo hi : ℚ} (h : t.memIcc lo hi) :
    F32.blt t (F32.fin lo) = false := by
  cases t with
  | nan => rfl
  | negInf => exact (h : False).elim
  | posInf => exact (h : False).elim
  | fin q =>
      obtain ⟨h1, _⟩ := h
      simp only [F32.blt, decide_eq_false_iff_not]
      exact not_lt.mpr h1

theorem F32.memIcc_not_blt_right {t : F32} {lo hi : ℚ} (h : t.memIcc lo hi) :
    F32.blt (F32.fin hi) t = false := by
  cases t with
  | nan => rfl
  | negInf => exact (h : False).elim
  | posInf => exact (h : False).elim
  | fin q =>
      obtain ⟨_, h2⟩ := h
      simp only [F32.blt, decide_eq_false_iff_not]
      exact not_lt.mpr h2

theorem clamped_mem (t : F32) (hi : ℚ) (ht : t ≠ F32.nan) (hhi : 0 ≤ hi) :
    (if F32.blt t (F32.fin 0) then F32.fin 0
     else if F32.blt (F32.fin hi) t then F32.fin hi else t).memIcc 0 hi := by
  cases t with
  | nan => exact absurd rfl ht
  | negInf =>
      norm_num [F32.blt, F32.memIcc]
      exact hhi
  | posInf =>
      norm_num [F32.blt, F32.memIcc]
      exact hhi
  | fin q =>
      by_cases h1 : q < 0
      · norm_num [F32.blt, F32.memIcc, h1]
        exact hhi
      · by_cases h2 : hi < q
        · norm_num [F32.blt, F32.memIcc, h1, h2]
          exact hhi
        · norm_num [F32.blt, F32.memIcc, h1, h2]
          exact ⟨le_of_not_lt h1, le_of_not_lt h2⟩

theorem applyCall_preserves (c : CreateChatCompletion) (call : BuilderCall)
    (hs : call.clampSafe) (hc : ParamInvariant c) :
    ParamInvariant (applyCall c call) := by
  obtain ⟨h1, h2⟩ := hc
  cases call
  case temperature t =>
      refine ⟨fun x hx => ?_, fun p hp => ?_⟩
      · simp only [applyCall] at hx
        rw [with_temperature_eq] at hx
        have hx2 : (if F32.blt t (F32.fin 0) then F32.fin 0
            else if F32.blt (F32.fin 2) t then F32.fin 2 else t) = x :=
          Option.some.inj hx
        rw [← hx2]
        exact clamped_mem t 2 hs (by norm_num)
      · simp only [applyCall] at hp
        rw [with_temperature_eq] at hp
        exact h2 p hp
  case top_p t =>
      refine ⟨fun x hx => ?_, fun p hp => ?_⟩
      · simp only [applyCall] at hx
        rw [with_top_p_eq] at hx
        exact h1 x hx
      · simp only [applyCall] at hp
        rw [with_top_p_eq] at hp
        have hp2 : (if F32.blt t (F32.fin 0) then F32.fin 0
            else if F32.blt (F32.fin 1) t then F32.fin 1 else t) = p :=
          Option.some.inj hp
        rw [← hp2]
        exact clamped_mem t 1 hs (by norm_num)
  all_goals exact ⟨h1, h2⟩

theorem applyCalls_preserves (calls : List BuilderCall) :
    ∀ (c : CreateChatCompletion), (∀ call ∈ calls, call.clampSafe) →
      ParamInvariant c → ParamInvariant (applyCalls c calls) := by
  induction calls with
  | nil => exact fun c _ hc => hc
  | cons call rest ih =>
      intro c hs hc
      exact ih (applyCall c call)
        (fun x hx => hs x (List.mem_cons_of_mem _ hx))
        (applyCall_preserves c call (hs call (List.mem_cons_self _ _)) hc)

theorem default_invariant : ParamInvariant CreateChatCompletion.default :=
  ⟨fun _ ht => Option.noConfusion ht, fun _ hp => Option.noConfusion hp⟩

theorem new_invariant (m : Model) (msgs : List Message) :
    ParamInvariant (CreateChatCompletion.new m msgs) :=
  ⟨fun _ ht => Option.noConfusion ht, fun _ hp => Option.noConfusion hp⟩

/-! ## The claims -/

/-- C1: for every f32 input t, with_temperature(t) on any CreateChatCompletion
sets temperature to Some(0.0) when t is below 0, to Some(2.0) when t is above
2, and stores t exactly (as Some(t)) when t lies in the interval from 0 to 2. -/
theorem claim_C1_temperature_clamp (c : CreateChatCompletion) (t : F32) :
    (F32.blt t (F32.fin 0) = true →
      (c.with_temperature t).temperature = some (F32.fin 0)) ∧
    (F32.blt (F32.fin 2) t = true →
      (c.with_temperature t).temperature = some (F32.fin 2)) ∧
    (t.memIcc 0 2 → (c.with_temperature t).temperature = some t) := by
  refine ⟨fun h => ?_, fun h => ?_, fun h => ?_⟩
  · simp [with_temperature_eq, h]
  · have h0 : F32.blt t (F32.fin 0) = false := by
      cases t with
      | nan => simp [F32.blt] at h
      | negInf => simp [F32.blt] at h
      | posInf => rfl
      | fin q =>
          have hq : (2 : ℚ) < q := by simpa [F32.blt] using h
          simp only [F32.blt, decide_eq_false_iff_not]
          intro hlt
          linarith
    simp [with_temperature_eq, h0, h]
  · simp [with_temperature_eq, F32.memIcc_not_blt_left h, F32.memIcc_not_blt_right h]

/-- C1 witness: the three cases of claim_C1_temperature_clamp at the concrete
inputs -1, 3 and 1. -/
theorem claim_C1_temperature_clamp_witness :
    (F32.blt (F32.fin (-1)) (F32.fin 0) = true ∧
      (CreateChatCompletion.default.with_temperature (F32.fin (-1))).temperature
        = some (F32.fin 0)) ∧
    (F32.blt (F32.fin 2) (F32.fin 3) = true ∧
      (CreateChatCompletion.default.with_temperature (F32.fin 3)).temperature
        = some (F32.fin 2)) ∧
    ((F32.fin 1).memIcc 0 2 ∧
      (CreateChatCompletion.default.with_temperature (F32.fin 1)).temperature
        = some (F32.fin 1)) :=
  ⟨⟨by decide, (claim_C1_temperature_clamp CreateChatCompletion.default
      (F32.fin (-1))).1 (by decide)⟩,
   ⟨by decide, (claim_C1_temperature_clamp CreateChatCompletion.default
      (F32.fin 3)).2.1 (by decide)⟩,
   ⟨by decide, (claim_C1_temperature_clamp CreateChatCompletion.default
      (F32.fin 1)).2.2 (by decide)⟩⟩

/-- C2: for every f32 input p, with_top_p(p) on any CreateChatCompletion sets
top_p to Some(0.0) when p is below 0, to Some(1.0) when p is above 1, and
stores p exactly (as Some(p)) when p lies in the interval from 0 to 1. -/
theorem claim_C2_top_p_clamp (c : CreateChatCompletion) (p : F32) :
    (F32.blt p (F32.fin 0) = true →
      (c.with_top_p p).top_p = some (F32.fin 0)) ∧
    (F32.blt (F32.fin 1) p = true →
      (c.with_top_p p).top_p = some (F32.fin 1)) ∧
    (p.memIcc 0 1 → (c.with_top_p p).top_p = some p) := by
  refine ⟨fun h => ?_, fun h => ?_, fun h => ?_⟩
  · simp [with_top_p_eq, h]
  · have h0 : F32.blt p (F32.fin 0) = false := by
      cases p with
      | nan => simp [F32.blt] at h
      | negInf => simp [F32.blt] at h
      | posInf => rfl
      | fin q =>
          have hq : (1 : ℚ) < q := by simpa [F32.blt] using h
          simp only [F32.blt, decide_eq_false_iff_not]
          intro hlt
          linarith
    simp [with_top_p_eq, h0, h]
  · simp [with_top_p_eq, F32.memIcc_not_blt_left h, F32.memIcc_not_blt_right h]

/-- C2 witness: the three cases of claim_C2_top_p_clamp at the concrete inputs
-1, 2 and 1. -/
theorem claim_C2_top_p_clamp_witness :
    (F32.blt (F32.fin (-1)) (F32.fin 0) = true ∧
      (CreateChatCompletion.default.with_top_p (F32.fin (-1))).top_p
        = some (F32.fin 0)) ∧
    (F32.blt (F32.fin 1) (F32.fin 2) = true ∧
      (CreateChatCompletion.default.with_top_p (F32.fin 2)).top_p
        = some (F32.fin 1)) ∧
    ((F32.fin 1).memIcc 0 1 ∧
      (CreateChatCompletion.default.with_top_p (F32.fin 1)).top_p
        = some (F32.fin 1)) :=
  ⟨⟨by decide, (claim_C2_top_p_clamp CreateChatCompletion.default
      (F32.fin (-1))).1 (by decide)⟩,
   ⟨by decide, (claim_C2_top_p_clamp CreateChatCompletion.default
      (F32.fin 2)).2.1 (by decide)⟩,
   ⟨by decide, (claim_C2_top_p_clamp CreateChatCompletion.default
      (F32.fin 1)).2.2 (by decide)⟩⟩

/-- C3 counterexample: the claim quantifies over arbitrary f32 arguments, but
the single builder call with_temperature(NaN) starting from the default
configuration yields temperature = Some(NaN), and NaN is not in the interval
from 0 to 2. -/
theorem claim_C3_counterexample :
    (applyCalls CreateChatCompletion.default
        [BuilderCall.temperature F32.nan]).temperature = some F32.nan ∧
    ¬ F32.nan.memIcc 0 2 :=
  ⟨rfl, fun h => h⟩

/-- C3 (amended): for every CreateChatCompletion reachable from the default
configuration or from new(model, messages) by a finite chain of builder calls
whose f32 arguments to with_temperature and with_top_p are not NaN, whenever
temperature is Some(t) then t lies in the interval from 0 to 2, and whenever
top_p is Some(p) then p lies in the interval from 0 to 1. -/
theorem claim_C3_amended_invariant (m : Model) (msgs : List Message)
    (calls : List BuilderCall) (hs : ∀ call ∈ calls, call.clampSafe) :
    ParamInvariant (applyCalls CreateChatCompletion.default calls) ∧
    ParamInvariant (applyCalls (CreateChatCompletion.new m msgs) calls) :=
  ⟨applyCalls_preserves calls _ hs default_invariant,
   applyCalls_preserves calls _ hs (new_invariant m msgs)⟩

/-- C3 witness: the amended invariant at a concrete chain that clamps an
over-range temperature and an infinite top_p. -/
theorem claim_C3_amended_invariant_witness :
    (∀ call ∈ [BuilderCall.temperature (F32.fin 5), BuilderCall.top_p F32.posInf,
        BuilderCall.max_tokens 3], call.clampSafe) ∧
    (ParamInvariant (applyCalls CreateChatCompletion.default
        [BuilderCall.temperature (F32.fin 5), BuilderCall.top_p F32.posInf,
         BuilderCall.max_tokens 3]) ∧
     ParamInvariant (applyCalls (CreateChatCompletion.new Model.gemma7B [])
        [BuilderCall.temperature (F32.fin 5), BuilderCall.top_p F32.posInf,
         BuilderCall.max_tokens 3])) :=
  ⟨by decide, claim_C3_amended_invariant Model.gemma7B []
      [BuilderCall.temperature (F32.fin 5), BuilderCall.top_p F32.posInf,
       BuilderCall.max_tokens 3] (by decide)⟩

/-- C4: with_temperature(NaN) stores Some(NaN) and with_top_p(NaN) stores
Some(NaN): both clamp comparisons are false for NaN, so the value is stored
unclamped and escapes the documented ranges. -/
theorem claim_C4_nan_escapes (c : CreateChatCompletion) :
    (c.with_temperature F32.nan).temperature = some F32.nan ∧
    (c.with_top_p F32.nan).top_p = some F32.nan ∧
    F32.blt F32.nan (F32.fin 0) = false ∧
    F32.blt (F32.fin 2) F32.nan = false ∧
    F32.blt (F32.fin 1) F32.nan = false ∧
    ¬ F32.nan.memIcc 0 2 ∧
    ¬ F32.nan.memIcc 0 1 :=
  ⟨rfl, rfl, rfl, rfl, rfl, fun h => h, fun h => h⟩

/-- C5: the default CreateChatCompletion has stream = None, max_tokens =
Some(1000), model = Llama38B, empty messages, and every other optional field
None. -/
theorem claim_C5_default_fields :
    CreateChatCompletion.default.stream = none ∧
    CreateChatCompletion.default.max_tokens = some 1000 ∧
    CreateChatCompletion.default.model = Model.llama38B ∧
    CreateChatCompletion.default.messages = [] ∧
    CreateChatCompletion.default.frequency_penalty = none ∧
    CreateChatCompletion.default.logit_bias = none ∧
    CreateChatCompletion.default.logprobs = none ∧
    CreateChatCompletion.default.top_logprobs = none ∧
    CreateChatCompletion.default.n = none ∧
    CreateChatCompletion.default.presence_penalty = none ∧
    CreateChatCompletion.default.response_format = none ∧
    CreateChatCompletion.default.seed = none ∧
    CreateChatCompletion.default.service_tier = none ∧
    CreateChatCompletion.default.stop = none ∧
    CreateChatCompletion.default.stream_options = none ∧
    CreateChatCompletion.default.temperature = none ∧
    CreateChatCompletion.default.top_p = none ∧
    CreateChatCompletion.default.parallel_tool_calls = none ∧
    CreateChatCompletion.default.user = none :=
  ⟨rfl, rfl, rfl, rfl, rfl, rfl, rfl, rfl, rfl, rfl, rfl, rfl, rfl, rfl, rfl,
   rfl, rfl, rfl, rfl⟩

/-- C6: new(m, msgs) is the default configuration with only model and messages
replaced; in particular max_tokens is still Some(1000) and every other
optional field is None. -/
theorem claim_C6_new_is_default_override (m : Model) (msgs : List Message) :
    CreateChatCompletion.new m msgs =
      { CreateChatCompletion.default with model := m, messages := msgs } ∧
    (CreateChatCompletion.new m msgs).model = m ∧
    (CreateChatCompletion.new m msgs).messages = msgs ∧
    (CreateChatCompletion.new m msgs).max_tokens = some 1000 ∧
    (CreateChatCompletion.new m msgs).frequency_penalty = none ∧
    (CreateChatCompletion.new m msgs).logit_bias = none ∧
    (CreateChatCompletion.new m msgs).logprobs = none ∧
    (CreateChatCompletion.new m msgs).top_logprobs = none ∧
    (CreateChatCompletion.new m msgs).n = none ∧
    (CreateChatCompletion.new m msgs).presence_penalty = none ∧
    (CreateChatCompletion.new m msgs).response_format = none ∧
    (CreateChatCompletion.new m msgs).seed = none ∧
    (CreateChatCompletion.new m msgs).service_tier = none ∧
    (CreateChatCompletion.new m msgs).stop = none ∧
    (CreateChatCompletion.new m msgs).stream = none ∧
    (CreateChatCompletion.new m msgs).stream_options = none ∧
    (CreateChatCompletion.new m msgs).temperature = none ∧
    (CreateChatCompletion.new m msgs).top_p = none ∧
    (CreateChatCompletion.new m msgs).parallel_tool_calls = none ∧
    (CreateChatCompletion.new m msgs).user = none :=
  ⟨rfl, rfl, rfl, rfl, rfl, rfl, rfl, rfl, rfl, rfl, rfl, rfl, rfl, rfl, rfl,
   rfl, rfl, rfl, rfl, rfl⟩

/-- C7: every with_X builder method returns the input configuration with
exactly the field X replaced (set to the given value, clamped for temperature
and top_p) and every other field unchanged. -/
theorem claim_C7_builder_frame (c : CreateChatCompletion) :
    (∀ m, c.with_model m = { c with model := m }) ∧
    (∀ ms, c.with_messages ms = { c with messages := ms }) ∧
    (∀ v, c.with_frequence_penalty v = { c with frequency_penalty := some v }) ∧
    (∀ j, c.with_logit_bias j = { c with logit_bias := some j }) ∧
    (∀ b, c.with_logprobs b = { c with logprobs := some b }) ∧
    (∀ v, c.with_top_logprobs v = { c with top_logprobs := some v }) ∧
    (∀ v, c.with_max_tokens v = { c with max_tokens := some v }) ∧
    (∀ v, c.with_n v = { c with n := some v }) ∧
    (∀ v, c.with_presence_penalty v = { c with presence_penalty := some v }) ∧
    (∀ r, c.with_response_format r = { c with response_format := some r }) ∧
    (∀ v, c.with_seed v = { c with seed := some v }) ∧
    (∀ s, c.with_service_tier s = { c with service_tier := some s }) ∧
    (∀ s, c.with_stop s = { c with stop := some s }) ∧
    (∀ b, c.with_stream b = { c with stream := some b }) ∧
    (∀ o, c.with_stream_options o = { c with stream_options := some o }) ∧
    (∀ t, c.with_temperature t = { c with temperature := some (if F32.blt t (F32.fin 0) then F32.fin 0 else if F32.blt (F32.fin 2) t then F32.fin 2 else t) }) ∧
    (∀ p, c.with_top_p p = { c with top_p := some (if F32.blt p (F32.fin 0) then F32.fin 0 else if F32.blt (F32.fin 1) p then F32.fin 1 else p) }) ∧
    (∀ b, c.with_parallel_tool_calls b = { c with parallel_tool_calls := some b }) ∧
    (∀ s, c.with_user s = { c with user := some s }) :=
  ⟨fun _ => rfl, fun _ => rfl, fun _ => rfl, fun _ => rfl, fun _ => rfl,
   fun _ => rfl, fun _ => rfl, fun _ => rfl, fun _ => rfl, fun _ => rfl,
   fun _ => rfl, fun _ => rfl, fun _ => rfl, fun _ => rfl, fun _ => rfl,
   fun t => with_temperature_eq c t, fun p => with_top_p_eq c p,
   fun _ => rfl, fun _ => rfl⟩

/-- C8: every builder method other than with_temperature and with_top_p stores
its argument exactly as given, with no range check or modification: the
Option-typed setters store Some(v) verbatim, and with_model / with_messages
store v verbatim. -/
theorem claim_C8_setters_store_exactly (c : CreateChatCompletion) :
    (∀ v, (c.with_frequence_penalty v).frequency_penalty = some v) ∧
    (∀ j, (c.with_logit_bias j).logit_bias = some j) ∧
    (∀ b, (c.with_logprobs b).logprobs = some b) ∧
    (∀ v, (c.with_top_logprobs v).top_logprobs = some v) ∧
    (∀ v, (c.with_max_tokens v).max_tokens = some v) ∧
    (∀ v, (c.with_n v).n = some v) ∧
    (∀ v, (c.with_presence_penalty v).presence_penalty = some v) ∧
    (∀ r, (c.with_response_format r).response_format = some r) ∧
    (∀ v, (c.with_seed v).seed = some v) ∧
    (∀ s, (c.with_service_tier s).service_tier = some s) ∧
    (∀ s, (c.with_stop s).stop = some s) ∧
    (∀ b, (c.with_stream b).stream = some b) ∧
    (∀ o, (c.with_stream_options o).stream_options = some o) ∧
    (∀ b, (c.with_parallel_tool_calls b).parallel_tool_calls = some b) ∧
    (∀ s, (c.with_user s).user = some s) ∧
    (∀ m, (c.with_model m).model = m) ∧
    (∀ ms, (c.with_messages ms).messages = ms) :=
  ⟨fun _ => rfl, fun _ => rfl, fun _ => rfl, fun _ => rfl, fun _ => rfl,
   fun _ => rfl, fun _ => rfl, fun _ => rfl, fun _ => rfl, fun _ => rfl,
   fun _ => rfl, fun _ => rfl, fun _ => rfl, fun _ => rfl, fun _ => rfl,
   fun _ => rfl, fun _ => rfl⟩


/-- C9: serializing a CreateChatCompletion and deserializing yields the value
back unchanged, and each Option-typed field contributes its key to the JSON
payload exactly when it is set, so fields that are None are omitted from the
payload and are still None after the round trip. -/
theorem claim_C9_roundtrip_and_omission (c : CreateChatCompletion) :
    decodeCreateChatCompletion (encodeCreateChatCompletion c) = some c ∧
    ((encodeFields c).map Prod.fst).contains "frequency_penalty" = c.frequency_penalty.isSome ∧
    ((encodeFields c).map Prod.fst).contains "logit_bias" = c.logit_bias.isSome ∧
    ((encodeFields c).map Prod.fst).contains "logprobs" = c.logprobs.isSome ∧
    ((encodeFields c).map Prod.fst).contains "top_logprobs" = c.top_logprobs.isSome ∧
    ((encodeFields c).map Prod.fst).contains "max_tokens" = c.max_tokens.isSome ∧
    ((encodeFields c).map Prod.fst).contains "n" = c.n.isSome ∧
    ((encodeFields c).map Prod.fst).contains "presence_penalty" = c.presence_penalty.isSome ∧
    ((encodeFields c).map Prod.fst).contains "response_format" = c.response_format.isSome ∧
    ((encodeFields c).map Prod.fst).contains "seed" = c.seed.isSome ∧
    ((encodeFields c).map Prod.fst).contains "service_tier" = c.service_tier.isSome ∧
    ((encodeFields c).map Prod.fst).contains "stop" = c.stop.isSome ∧
    ((encodeFields c).map Prod.fst).contains "stream" = c.stream.isSome ∧
    ((encodeFields c).map Prod.fst).contains "stream_options" = c.stream_options.isSome ∧
    ((encodeFields c).map Prod.fst).contains "temperature" = c.temperature.isSome ∧
    ((encodeFields c).map Prod.fst).contains "top_p" = c.top_p.isSome ∧
    ((encodeFields c).map Prod.fst).contains "parallel_tool_calls" = c.parallel_tool_calls.isSome ∧
    ((encodeFields c).map Prod.fst).contains "user" = c.user.isSome := by
  refine ⟨decode_encode c, ?_, ?_, ?_, ?_, ?_, ?_, ?_, ?_, ?_, ?_, ?_, ?_, ?_, ?_, ?_, ?_, ?_⟩
  · rw [contains_keys_eq_isSome, jlookup_enc_frequency_penalty]
    cases c.frequency_penalty <;> rfl
  · rw [contains_keys_eq_isSome, jlookup_enc_logit_bias]
    cases c.logit_bias <;> rfl
  · rw [contains_keys_eq_isSome, jlookup_enc_logprobs]
    cases c.logprobs <;> rfl
  · rw [contains_keys_eq_isSome, jlookup_enc_top_logprobs]
    cases c.top_logprobs <;> rfl
  · rw [contains_keys_eq_isSome, jlookup_enc_max_tokens]
    cases c.max_tokens <;> rfl
  · rw [contains_keys_eq_isSome, jlookup_enc_n]
    cases c.n <;> rfl
  · rw [contains_keys_eq_isSome, jlookup_enc_presence_penalty]
    cases c.presence_penalty <;> rfl
  · rw [contains_keys_eq_isSome, jlookup_enc_response_format]
    cases c.response_format <;> rfl
  · rw [contains_keys_eq_isSome, jlookup_enc_seed]
    cases c.seed <;> rfl
  · rw [contains_keys_eq_isSome, jlookup_enc_service_tier]
    cases c.service_tier <;> rfl
  · rw [contains_keys_eq_isSome, jlookup_enc_stop]
    cases c.stop <;> rfl
  · rw [contains_keys_eq_isSome, jlookup_enc_stream]
    cases c.stream <;> rfl
  · rw [contains_keys_eq_isSome, jlookup_enc_stream_options]
    cases c.stream_options <;> rfl
  · rw [contains_keys_eq_isSome, jlookup_enc_temperature]
    cases c.temperature <;> rfl
  · rw [contains_keys_eq_isSome, jlookup_enc_top_p]
    cases c.top_p <;> rfl
  · rw [contains_keys_eq_isSome, jlookup_enc_parallel_tool_calls]
    cases c.parallel_tool_calls <;> rfl
  · rw [contains_keys_eq_isSome, jlookup_enc_user]
    cases c.user <;> rfl

/-- C10 counterexample: Message does not carry an optional list of tool calls.
Deserializing a message object that does contain a tool_calls key yields the
message with content "hi", role user and no name, and re-serializing that
message produces a payload without any tool_calls key: no tool-call data is
carried by Message (whose third field is the optional name instead). -/
theorem claim_C10_counterexample :
    decodeMessage (Json.obj [("content", Json.str "hi"), ("role", Json.str "user"),
      ("tool_calls", Json.arr [])]) =
      some { content := "hi", role := Role.user, name := none } ∧
    jlookup "tool_calls" (encodeMessageFields
      { content := "hi", role := Role.user, name := none }) = none :=
  ⟨rfl, rfl⟩

/-- C10 (amended): ChoiceMessage carries a role, a content field and an
optional list of tool calls; Message carries a role and a content field but no
tool calls — its third field is an optional name, and its serialized form
never contains a tool_calls key; Role has exactly the variants assistant,
system and user. -/
theorem claim_C10_amended_message_fields :
    (∀ (ct rf : Option String) (tc : Option (List ToolCall)) (r : Role),
      (ChoiceMessage.mk ct rf tc r).tool_calls = tc ∧
      (ChoiceMessage.mk ct rf tc r).content = ct ∧
      (ChoiceMessage.mk ct rf tc r).role = r) ∧
    (∀ (ct : String) (r : Role) (nm : Option String),
      (Message.mk ct r nm).content = ct ∧
      (Message.mk ct r nm).role = r ∧
      (Message.mk ct r nm).name = nm) ∧
    (∀ r : Role, r = Role.assistant ∨ r = Role.system ∨ r = Role.user) ∧
    (∀ m : Message, jlookup "tool_calls" (encodeMessageFields m) = none) := by
  refine ⟨fun ct rf tc r => ⟨rfl, rfl, rfl⟩, fun ct r nm => ⟨rfl, rfl, rfl⟩, ?_, ?_⟩
  · intro r
    cases r
    · exact Or.inl rfl
    · exact Or.inr (Or.inl rfl)
    · exact Or.inr (Or.inr rfl)
  · intro m
    cases h : m.name <;> simp [encodeMessageFields, optField, jlookup, h]

end Groq
